import Mathlib

/-!
Shallow embedding of the SOLID example repository (the "corrected" DIP/LSP
classes of `dip_real.py` and `lsp_unified_example.py`).

Conventions of the embedding:
* Python `float` amounts are modelled as exact rationals `ℚ`.
* A Python method that may raise is modelled as returning `Except String α`;
  `Except.error` is a raised exception, `Except.ok` a normal return.
* The fresh value drawn from `uuid.uuid4()` inside a method body is modelled
  as an explicit extra `String` parameter (the entropy the call consumes);
  methods whose source contains no `uuid.uuid4()` call take no such parameter.
* Python dictionaries returned by coordinator operations are modelled as
  inductive result types, one constructor per distinct dictionary shape.
* For the payment coordinator we additionally record the trace of provider
  `process_payment` invocations (the list of the names of the providers that
  were called), which is the observable call behaviour of the source loop.
-/

/-- Result dictionary returned by the concrete `process_payment` methods. -/
structure PayResult where
  success : Bool
  transaction_id : String
  amount : ℚ
  fee : ℚ
deriving DecidableEq, Repr

/-- Result dictionary returned by the concrete `refund_payment` methods. -/
structure RefundResult where
  success : Bool
  refund_id : String
deriving DecidableEq, Repr

/-- Result dictionary of `FraudDetection.check_transaction`. -/
structure FraudCheck where
  risk_score : ℚ
  is_safe : Bool
  recommendations : List String
deriving DecidableEq, Repr

/-- Metadata dictionaries are modelled as association lists. -/
abbrev Metadata := List (String × String)

/-! ## CDN providers (`CDNProvider` interface and its three implementations) -/

/-- The `CDNProvider` abstract interface.  Operations that the coordinator
calls inside a `try` block are allowed to raise, hence `Except`-valued;
`is_available_in_region` is called outside any `try` in the source and is
modelled total here (its failure is not needed by any claim). -/
structure CDNProvider where
  name : String
  get_stream_url : String → String → String → Except String String
  get_available_qualities : String → Except String (List String)
  get_bandwidth_cost : ℚ → ℚ
  is_available_in_region : String → Bool

namespace AkamaiCDN

def get_stream_url (region video_id quality : String) : String :=
  "https://akamai-" ++ region ++ ".com/video/" ++ video_id ++ "/" ++ quality

def get_available_qualities (_video_id : String) : List String :=
  ["480p", "720p", "1080p", "4K"]

def get_bandwidth_cost (data_gb : ℚ) : ℚ := data_gb * (85 / 1000)

def is_available_in_region (region : String) : Bool :=
  ["US", "EU", "ASIA"].contains region

end AkamaiCDN

/-- `AkamaiCDN(api_key, region)` as a `CDNProvider` value. -/
def AkamaiCDN.make (_api_key region : String) : CDNProvider where
  name := "AkamaiCDN"
  get_stream_url := fun video_id quality _loc =>
    .ok (AkamaiCDN.get_stream_url region video_id quality)
  get_available_qualities := fun v => .ok (AkamaiCDN.get_available_qualities v)
  get_bandwidth_cost := AkamaiCDN.get_bandwidth_cost
  is_available_in_region := AkamaiCDN.is_available_in_region

namespace CloudFrontCDN

def get_stream_url (distribution_id video_id quality : String) : String :=
  "https://" ++ distribution_id ++ ".cloudfront.net/" ++ video_id ++ "/" ++ quality ++ ".m3u8"

def get_available_qualities (_video_id : String) : List String :=
  ["360p", "480p", "720p", "1080p", "4K", "8K"]

def get_bandwidth_cost (data_gb : ℚ) : ℚ := data_gb * (75 / 1000)

def is_available_in_region (_region : String) : Bool := true

end CloudFrontCDN

/-- `CloudFrontCDN(aws_access_key, aws_secret, distribution_id)` as a `CDNProvider`. -/
def CloudFrontCDN.make (_aws_access_key _aws_secret distribution_id : String) : CDNProvider where
  name := "CloudFrontCDN"
  get_stream_url := fun video_id quality _loc =>
    .ok (CloudFrontCDN.get_stream_url distribution_id video_id quality)
  get_available_qualities := fun v => .ok (CloudFrontCDN.get_available_qualities v)
  get_bandwidth_cost := CloudFrontCDN.get_bandwidth_cost
  is_available_in_region := CloudFrontCDN.is_available_in_region

namespace FastlyCDN

def get_stream_url (service_id video_id quality : String) : String :=
  "https://fastly-global.com/" ++ service_id ++ "/stream/" ++ video_id ++ "?q=" ++ quality

def get_available_qualities (_video_id : String) : List String :=
  ["240p", "480p", "720p", "1080p"]

def get_bandwidth_cost (data_gb : ℚ) : ℚ := data_gb * (95 / 1000)

def is_available_in_region (region : String) : Bool :=
  ["US", "EU", "CA"].contains region

end FastlyCDN

/-- `FastlyCDN(service_id, api_token)` as a `CDNProvider`. -/
def FastlyCDN.make (service_id _api_token : String) : CDNProvider where
  name := "FastlyCDN"
  get_stream_url := fun video_id quality _loc =>
    .ok (FastlyCDN.get_stream_url service_id video_id quality)
  get_available_qualities := fun v => .ok (FastlyCDN.get_available_qualities v)
  get_bandwidth_cost := FastlyCDN.get_bandwidth_cost
  is_available_in_region := FastlyCDN.is_available_in_region

/-! ## The streaming coordinator (`VideoStreamingService`) -/

/-- The distinct result-dictionary shapes of `stream_video`:
`ok url quality cdn_provider using_backup` is the success dictionary
(`using_backup = false` for the primary branch, which carries
`"backup_available": True` instead, `using_backup = true` for the backup
branch); `noCDN` is `{"success": False, "error": "No CDN available in region"}`. -/
inductive StreamOutcome where
  | ok (stream_url quality cdn_provider : String) (using_backup : Bool)
  | noCDN
deriving DecidableEq, Repr

/-- The `success` field of a `stream_video` result dictionary. -/
def StreamOutcome.success : StreamOutcome → Bool
  | .ok _ _ _ _ => true
  | .noCDN => false

structure VideoStreamingService where
  primary_cdn : CDNProvider
  backup_cdn : CDNProvider

/-- `quality = preferred_quality if preferred_quality in available_qualities
else available_qualities[-1]`; indexing `[-1]` raises `IndexError` on `[]`. -/
def selectQuality (preferred : String) (qs : List String) : Except String String :=
  if preferred ∈ qs then .ok preferred
  else
    match qs.getLast? with
    | some q => .ok q
    | none => .error "IndexError"

/-- The body shared by the primary and backup branches of `stream_video`:
fetch the qualities, choose one, build the stream URL.  Returns the pair
(stream url, chosen quality) or the first exception raised. -/
def streamBranch (cdn : CDNProvider) (video_id preferred loc : String) :
    Except String (String × String) :=
  match cdn.get_available_qualities video_id with
  | .error e => .error e
  | .ok qs =>
    match selectQuality preferred qs with
    | .error e => .error e
    | .ok q =>
      match cdn.get_stream_url video_id q loc with
      | .error e => .error e
      | .ok url => .ok (url, q)

/-- `VideoStreamingService.stream_video`.  The primary branch runs inside
`try/except` (its exception falls through to the backup); the backup branch
has no `try`, so its exception propagates to the caller (`Except.error`). -/
def stream_video (svc : VideoStreamingService)
    (_user_id video_id user_location preferred_quality : String) :
    Except String StreamOutcome :=
  let backupStep : Except String StreamOutcome :=
    if svc.backup_cdn.is_available_in_region user_location then
      match streamBranch svc.backup_cdn video_id preferred_quality user_location with
      | .ok (url, q) => .ok (.ok url q svc.backup_cdn.name true)
      | .error e => .error e
    else
      .ok .noCDN
  if svc.primary_cdn.is_available_in_region user_location then
    match streamBranch svc.primary_cdn video_id preferred_quality user_location with
    | .ok (url, q) => .ok (.ok url q svc.primary_cdn.name false)
    | .error _ => backupStep
  else
    backupStep

/-! ## Payment methods (`PaymentMethod` interface and its three implementations) -/

/-- The `PaymentMethod` abstract interface as seen by the coordinator.
`process_payment` and `refund_payment` run inside `try` blocks in the
coordinator, hence `Except`-valued. -/
structure PaymentMethod where
  name : String
  process_payment : ℚ → Metadata → Except String PayResult
  refund_payment : String → ℚ → Except String RefundResult
  is_available_in_country : String → Bool
  get_processing_fee : ℚ → ℚ

namespace StripePayment

def get_processing_fee (amount : ℚ) : ℚ := amount * (29 / 1000) + 3 / 10

def is_available_in_country (country_code : String) : Bool :=
  ["US", "CA", "GB", "AU", "DE", "FR"].contains country_code

/-- `u` is the fresh `uuid.uuid4()` value drawn during the call. -/
def process_payment (u : String) (amount : ℚ) (_metadata : Metadata) : PayResult :=
  { success := true
    transaction_id := "stripe_" ++ u
    amount := amount
    fee := get_processing_fee amount }

/-- `u` is the fresh `uuid.uuid4()` value drawn during the call. -/
def refund_payment (u : String) (_transaction_id : String) (_amount : ℚ) : RefundResult :=
  { success := true, refund_id := "refund_" ++ u }

end StripePayment

/-- `StripePayment(api_key)` as a `PaymentMethod`, with `u` the uuid value its
next call will draw. -/
def StripePayment.make (_api_key u : String) : PaymentMethod where
  name := "StripePayment"
  process_payment := fun amount md => .ok (StripePayment.process_payment u amount md)
  refund_payment := fun tid amount => .ok (StripePayment.refund_payment u tid amount)
  is_available_in_country := StripePayment.is_available_in_country
  get_processing_fee := StripePayment.get_processing_fee

namespace PayPalPayment

def get_processing_fee (amount : ℚ) : ℚ := amount * (349 / 10000)

def is_available_in_country (_country_code : String) : Bool := true

def process_payment (u : String) (amount : ℚ) (_metadata : Metadata) : PayResult :=
  { success := true
    transaction_id := "paypal_" ++ u
    amount := amount
    fee := get_processing_fee amount }

def refund_payment (u : String) (_transaction_id : String) (_amount : ℚ) : RefundResult :=
  { success := true, refund_id := "pp_refund_" ++ u }

end PayPalPayment

/-- `PayPalPayment(client_id, client_secret)` as a `PaymentMethod`. -/
def PayPalPayment.make (_client_id _client_secret u : String) : PaymentMethod where
  name := "PayPalPayment"
  process_payment := fun amount md => .ok (PayPalPayment.process_payment u amount md)
  refund_payment := fun tid amount => .ok (PayPalPayment.refund_payment u tid amount)
  is_available_in_country := PayPalPayment.is_available_in_country
  get_processing_fee := PayPalPayment.get_processing_fee

namespace ApplePayment

def get_processing_fee (amount : ℚ) : ℚ := amount * (25 / 1000)

def is_available_in_country (country_code : String) : Bool :=
  ["US", "CA", "GB", "AU", "JP", "CN"].contains country_code

def process_payment (u : String) (amount : ℚ) (_metadata : Metadata) : PayResult :=
  { success := true
    transaction_id := "apple_" ++ u
    amount := amount
    fee := get_processing_fee amount }

def refund_payment (u : String) (_transaction_id : String) (_amount : ℚ) : RefundResult :=
  { success := true, refund_id := "apple_refund_" ++ u }

end ApplePayment

/-- `ApplePayment(merchant_id)` as a `PaymentMethod`. -/
def ApplePayment.make (_merchant_id u : String) : PaymentMethod where
  name := "ApplePayment"
  process_payment := fun amount md => .ok (ApplePayment.process_payment u amount md)
  refund_payment := fun tid amount => .ok (ApplePayment.refund_payment u tid amount)
  is_available_in_country := ApplePayment.is_available_in_country
  get_processing_fee := ApplePayment.get_processing_fee

/-- `SiftFraudDetection.check_transaction`. -/
def SiftFraudDetection.check_transaction (_api_key _user_id : String) (amount : ℚ)
    (_location : String) : FraudCheck :=
  let risk_score : ℚ := if amount < 100 then 15 / 100 else 35 / 100
  { risk_score := risk_score
    is_safe := decide (risk_score < 1 / 2)
    recommendations := if risk_score > 3 / 10 then ["verify_location"] else [] }

/-! ## The payment coordinator (`RidePaymentService`) -/

structure RidePaymentService where
  payment_methods : List PaymentMethod
  fraud_detector : String → ℚ → String → FraudCheck

/-- The distinct result-dictionary shapes of `complete_ride_payment`. -/
inductive PaymentOutcome where
  | fraud (risk_score : ℚ)
  | noMethods
  | paid (transaction_id : String) (amount_charged processing_fee : ℚ)
      (payment_method : String)
  | allFailed
deriving DecidableEq, Repr

/-- The metadata dictionary `complete_ride_payment` passes to `process_payment`. -/
def rideMetadata (user_id user_location : String) : Metadata :=
  [("user_id", user_id), ("ride_type", "standard"), ("location", user_location)]

/-- `[m for m in self._payment_methods if m.is_available_in_country(c)]`. -/
def availableMethods (svc : RidePaymentService) (country : String) : List PaymentMethod :=
  svc.payment_methods.filter (fun m => m.is_available_in_country country)

/-- `available_methods[i:] + available_methods[:i]` (Python slicing and
`List.drop`/`List.take` agree, also for `i` beyond the length). -/
def rotationFrom (l : List PaymentMethod) (i : Nat) : List PaymentMethod :=
  l.drop i ++ l.take i

/-- The `for method in methods_to_try` loop of `complete_ride_payment`,
instrumented with the trace of the providers whose `process_payment` was
invoked.  An exception (`.error`) or an unsuccessful result both continue
with the next method; the first successful result returns the `paid`
dictionary. -/
def tryMethodsTrace (amt : ℚ) (uid loc : String) :
    List PaymentMethod → PaymentOutcome × List String
  | [] => (.allFailed, [])
  | m :: rest =>
    match m.process_payment amt (rideMetadata uid loc) with
    | .error _ =>
      let r := tryMethodsTrace amt uid loc rest
      (r.1, m.name :: r.2)
    | .ok res =>
      if res.success then
        (.paid res.transaction_id amt res.fee m.name, [m.name])
      else
        let r := tryMethodsTrace amt uid loc rest
        (r.1, m.name :: r.2)

/-- `RidePaymentService.complete_ride_payment`, returning the result
dictionary together with the trace of attempted providers. -/
def complete_ride_payment (svc : RidePaymentService) (user_id : String) (ride_amount : ℚ)
    (user_country user_location : String) (preferred_method_index : Nat) :
    PaymentOutcome × List String :=
  let fraud_check := svc.fraud_detector user_id ride_amount user_location
  if !fraud_check.is_safe then
    (.fraud fraud_check.risk_score, [])
  else
    match availableMethods svc user_country with
    | [] => (.noMethods, [])
    | m0 :: rest =>
      tryMethodsTrace ride_amount user_id user_location
        (rotationFrom (m0 :: rest) preferred_method_index)

/-- One row of the `costs` list built by `get_cheapest_payment_method`. -/
structure CostEntry where
  method : String
  fee : ℚ
  total_cost : ℚ
  percentage : ℚ
deriving DecidableEq, Repr

/-- The field values of one `costs` row for a non-zero amount. -/
def costEntryFields (amount : ℚ) (m : PaymentMethod) : CostEntry :=
  { method := m.name
    fee := m.get_processing_fee amount
    total_cost := amount + m.get_processing_fee amount
    percentage := m.get_processing_fee amount / amount * 100 }

/-- One iteration of the `costs`-building loop: computing
`"percentage": (fee / amount) * 100` raises `ZeroDivisionError` when
`amount = 0` (Python float division by zero), else the row is built. -/
def costEntry (amount : ℚ) (m : PaymentMethod) : Except String CostEntry :=
  if amount = 0 then .error "ZeroDivisionError"
  else .ok (costEntryFields amount m)

/-- The `costs`-building loop over the remaining methods; the first raised
`ZeroDivisionError` propagates. -/
def buildCosts (amount : ℚ) : List PaymentMethod → Except String (List CostEntry)
  | [] => .ok []
  | m :: rest =>
    match costEntry amount m with
    | .error e => .error e
    | .ok c =>
      match buildCosts amount rest with
      | .error e => .error e
      | .ok cs => .ok (c :: cs)

/-- Python `min(x :: xs, key)`: keeps the first element among ties. -/
def pyMinBy (key : α → ℚ) (x : α) (xs : List α) : α :=
  xs.foldl (fun acc y => if key y < key acc then y else acc) x

/-- Python `max(x :: xs, key)`: keeps the first element among ties. -/
def pyMaxBy (key : α → ℚ) (x : α) (xs : List α) : α :=
  xs.foldl (fun acc y => if key y > key acc then y else acc) x

/-- The distinct result-dictionary shapes of `get_cheapest_payment_method`. -/
inductive CheapestOutcome where
  | unavailable
  | result (recommended_method : String) (savings_breakdown : List CostEntry)
      (potential_savings : ℚ)
deriving DecidableEq, Repr

/-- `RidePaymentService.get_cheapest_payment_method`:
`potential_savings = max(costs, key=fee).fee - min(costs, key=fee).fee`.
The method has no `try/except`, so the `ZeroDivisionError` raised while
building the `costs` rows at `amount = 0` propagates to the caller
(`Except.error`). -/
def get_cheapest_payment_method (svc : RidePaymentService) (amount : ℚ)
    (country : String) : Except String CheapestOutcome :=
  match availableMethods svc country with
  | [] => .ok .unavailable
  | m0 :: rest =>
    match costEntry amount m0 with
    | .error e => .error e
    | .ok c0 =>
      match buildCosts amount rest with
      | .error e => .error e
      | .ok cs =>
        let cheapest := pyMinBy CostEntry.fee c0 cs
        .ok (.result cheapest.method (c0 :: cs)
          ((pyMaxBy CostEntry.fee c0 cs).fee - cheapest.fee))

theorem buildCosts_of_ne_zero {amount : ℚ} (hamount : amount ≠ 0)
    (l : List PaymentMethod) :
    buildCosts amount l = .ok (l.map (costEntryFields amount)) := by
  induction l with
  | nil => rfl
  | cons m rest ih => simp [buildCosts, costEntry, hamount, ih]

/-! ## Shapes (`lsp_unified_example.py`, corrected LSP classes) -/

structure Rectangle where
  width : ℚ
  height : ℚ
deriving DecidableEq, Repr

/-- `Rectangle.__init__`: raises `ValueError` on a non-positive dimension,
else stores the dimensions unchanged. -/
def Rectangle.make (width height : ℚ) : Except String Rectangle :=
  if width ≤ 0 ∨ height ≤ 0 then .error "Width and height must be positive"
  else .ok { width := width, height := height }

def Rectangle.area (r : Rectangle) : ℚ := r.width * r.height

def Rectangle.perimeter (r : Rectangle) : ℚ := 2 * (r.width + r.height)

structure Square where
  side : ℚ
deriving DecidableEq, Repr

/-- `Square.__init__`: raises `ValueError` on a non-positive side, else stores
the side unchanged. -/
def Square.make (side : ℚ) : Except String Square :=
  if side ≤ 0 then .error "Side must be positive"
  else .ok { side := side }

def Square.area (s : Square) : ℚ := s.side ^ 2

def Square.perimeter (s : Square) : ℚ := 4 * s.side

/-! ## Repository storage (`RepositoryStorage` and `GitHubRepositoryService`) -/

/-- Python `bytes` payloads are modelled as strings; `b""` (falsy) is the
empty string. -/
abbrev Bytes := String

/-- The `RepositoryStorage` abstract interface (the operations the
coordinator uses). -/
structure RepositoryStorage where
  name : String
  store_repository : String → Bytes → Bool
  retrieve_repository : String → Option Bytes

/-- Result dictionary of `BackupStrategy.backup_repository`; the coordinator
only reads `backup_result.get("backup_id")`. -/
structure BackupResult where
  backup_id : Option String

/-- The `BackupStrategy` abstract interface. -/
structure BackupStrategy where
  backup_repository : String → Bytes → BackupResult

def FilesystemStorage.make (_base_path : String) : RepositoryStorage where
  name := "FilesystemStorage"
  store_repository := fun _ _ => true
  retrieve_repository := fun _ => some "mock_repo_data"

def S3Storage.make (_bucket_name _aws_access_key _aws_secret : String) : RepositoryStorage where
  name := "S3Storage"
  store_repository := fun _ _ => true
  retrieve_repository := fun _ => some "s3_repo_data"

structure GitHubRepositoryService where
  primary_storage : RepositoryStorage
  backup_storage : RepositoryStorage
  backup_strategy : BackupStrategy

/-- The distinct result-dictionary shapes of `create_repository`. -/
inductive CreateOutcome where
  | primaryFailed
  | created (repo_id primary_storage backup_storage : String) (backup_created : Bool)
      (backup_id : Option String)

/-- `GitHubRepositoryService.create_repository`.  The method assigns no field
of `self`, so the returned coordinator state is the input state. -/
def create_repository (svc : GitHubRepositoryService) (repo_id : String)
    (initial_data : Bytes) : CreateOutcome × GitHubRepositoryService :=
  if svc.primary_storage.store_repository repo_id initial_data then
    let backup_result := svc.backup_strategy.backup_repository repo_id initial_data
    let backup_success := svc.backup_storage.store_repository repo_id initial_data
    (.created repo_id svc.primary_storage.name svc.backup_storage.name backup_success
        backup_result.backup_id, svc)
  else
    (.primaryFailed, svc)

/-- The distinct result-dictionary shapes of `migrate_repository_storage`. -/
inductive MigrateOutcome where
  | notFound
  | targetFailed
  | migrated (repo_id migrated_from migrated_to : String) (data_size : Nat)
deriving DecidableEq, Repr

/-- The `success` field of a `migrate_repository_storage` result. -/
def MigrateOutcome.success : MigrateOutcome → Bool
  | .migrated _ _ _ _ => true
  | _ => false

/-- `GitHubRepositoryService.migrate_repository_storage`.  `if not repo_data`
treats both `None` and empty bytes as "Repository not found"; on success the
method reassigns `self._primary_storage = target_storage`. -/
def migrate_repository_storage (svc : GitHubRepositoryService) (repo_id : String)
    (target_storage : RepositoryStorage) : MigrateOutcome × GitHubRepositoryService :=
  match svc.primary_storage.retrieve_repository repo_id with
  | none => (.notFound, svc)
  | some repo_data =>
    if repo_data.isEmpty then (.notFound, svc)
    else if target_storage.store_repository repo_id repo_data then
      (.migrated repo_id svc.primary_storage.name target_storage.name repo_data.length,
        { svc with primary_storage := target_storage })
    else
      (.targetFailed, svc)

/-! ## Helper lemmas -/

theorem selectQuality_ok_of_ne_nil (pref : String) {qs : List String} (h : qs ≠ []) :
    ∃ q, selectQuality pref qs = .ok q := by
  unfold selectQuality
  by_cases hm : pref ∈ qs
  · exact ⟨pref, by simp [hm]⟩
  · have hs : qs.getLast?.isSome := by
      cases qs with
      | nil => exact absurd rfl h
      | cons a as => simp [List.getLast?_isSome]
    obtain ⟨q, hq⟩ := Option.isSome_iff_exists.mp hs
    exact ⟨q, by simp [hm, hq]⟩

theorem selectQuality_ok_cases {pref q : String} {qs : List String}
    (h : selectQuality pref qs = .ok q) :
    (pref ∈ qs ∧ q = pref) ∨ (pref ∉ qs ∧ qs.getLast? = some q) := by
  unfold selectQuality at h
  by_cases hm : pref ∈ qs
  · simp [hm] at h
    exact .inl ⟨hm, h.symm⟩
  · simp [hm] at h
    split at h
    · rename_i l hl
      simp only [Except.ok.injEq] at h
      exact .inr ⟨hm, by rw [hl, h]⟩
    · simp at h

theorem streamBranch_ok {cdn : CDNProvider} {v pref loc url q : String}
    (h : streamBranch cdn v pref loc = .ok (url, q)) :
    ∃ qs, cdn.get_available_qualities v = .ok qs ∧ selectQuality pref qs = .ok q ∧
      cdn.get_stream_url v q loc = .ok url := by
  unfold streamBranch at h
  split at h
  · simp at h
  · rename_i qs hqs
    split at h
    · simp at h
    · rename_i q' hq
      split at h
      · simp at h
      · rename_i url' hu
        simp only [Except.ok.injEq, Prod.mk.injEq] at h
        obtain ⟨h1, h2⟩ := h
        subst h1; subst h2
        exact ⟨qs, hqs, hq, hu⟩

theorem stream_video_ok_cases {svc : VideoStreamingService} {u v loc pref url q n : String}
    {ub : Bool} (h : stream_video svc u v loc pref = .ok (.ok url q n ub)) :
    (ub = false ∧ n = svc.primary_cdn.name ∧
      svc.primary_cdn.is_available_in_region loc = true ∧
      streamBranch svc.primary_cdn v pref loc = .ok (url, q)) ∨
    (ub = true ∧ n = svc.backup_cdn.name ∧
      svc.backup_cdn.is_available_in_region loc = true ∧
      streamBranch svc.backup_cdn v pref loc = .ok (url, q)) := by
  unfold stream_video at h
  simp only [] at h
  by_cases hp : svc.primary_cdn.is_available_in_region loc = true
  · rw [if_pos hp] at h
    split at h
    · rename_i url' q' hsp
      simp only [Except.ok.injEq, StreamOutcome.ok.injEq] at h
      obtain ⟨h1, h2, h3, h4⟩ := h
      subst h1; subst h2; subst h3; subst h4
      exact .inl ⟨rfl, rfl, hp, hsp⟩
    · rename_i e hsp
      by_cases hb : svc.backup_cdn.is_available_in_region loc = true
      · rw [if_pos hb] at h
        split at h
        · rename_i url' q' hsb
          simp only [Except.ok.injEq, StreamOutcome.ok.injEq] at h
          obtain ⟨h1, h2, h3, h4⟩ := h
          subst h1; subst h2; subst h3; subst h4
          exact .inr ⟨rfl, rfl, hb, hsb⟩
        · simp at h
      · rw [if_neg hb] at h
        simp at h
  · rw [if_neg hp] at h
    by_cases hb : svc.backup_cdn.is_available_in_region loc = true
    · rw [if_pos hb] at h
      split at h
      · rename_i url' q' hsb
        simp only [Except.ok.injEq, StreamOutcome.ok.injEq] at h
        obtain ⟨h1, h2, h3, h4⟩ := h
        subst h1; subst h2; subst h3; subst h4
        exact .inr ⟨rfl, rfl, hb, hsb⟩
      · simp at h
    · rw [if_neg hb] at h
      simp at h

/-- A provider attempt that does not succeed: `process_payment` either raises
or returns a result with `success = False`. -/
def methodFails (m : PaymentMethod) (amt : ℚ) (uid loc : String) : Prop :=
  ∀ r, m.process_payment amt (rideMetadata uid loc) = .ok r → r.success = false

theorem tryMethodsTrace_all_fail {amt : ℚ} {uid loc : String} {l : List PaymentMethod}
    (h : ∀ m ∈ l, methodFails m amt uid loc) :
    tryMethodsTrace amt uid loc l = (.allFailed, l.map PaymentMethod.name) := by
  induction l with
  | nil => rfl
  | cons m rest ih =>
    have hrest := ih (fun m' hm' => h m' (List.mem_cons_of_mem _ hm'))
    unfold tryMethodsTrace
    split
    · rename_i e hp
      simp [hrest]
    · rename_i r hp
      have hfail : r.success = false := h m (List.mem_cons_self _ _) r hp
      simp [hfail, hrest]

theorem tryMethodsTrace_first_success {amt : ℚ} {uid loc : String}
    {pre post : List PaymentMethod} {m : PaymentMethod} {r : PayResult}
    (hpre : ∀ m' ∈ pre, methodFails m' amt uid loc)
    (hm : m.process_payment amt (rideMetadata uid loc) = .ok r)
    (hs : r.success = true) :
    tryMethodsTrace amt uid loc (pre ++ m :: post) =
      (.paid r.transaction_id amt r.fee m.name, pre.map PaymentMethod.name ++ [m.name]) := by
  induction pre with
  | nil =>
    unfold tryMethodsTrace
    simp [hm, hs]
  | cons p pre ih =>
    have hrest := ih (fun m' hm' => hpre m' (List.mem_cons_of_mem _ hm'))
    rw [List.cons_append]
    unfold tryMethodsTrace
    split
    · rename_i e hp
      simp [hrest]
    · rename_i r' hp
      have hfail : r'.success = false := hpre p (List.mem_cons_self _ _) r' hp
      simp [hfail, hrest]

theorem pyMinBy_cons (key : α → ℚ) (x y : α) (ys : List α) :
    pyMinBy key x (y :: ys) = pyMinBy key (if key y < key x then y else x) ys := rfl

theorem pyMaxBy_cons (key : α → ℚ) (x y : α) (ys : List α) :
    pyMaxBy key x (y :: ys) = pyMaxBy key (if key y > key x then y else x) ys := rfl

theorem pyMinBy_mem (key : α → ℚ) (x : α) (xs : List α) :
    pyMinBy key x xs ∈ x :: xs := by
  induction xs generalizing x with
  | nil => simp [pyMinBy]
  | cons y ys ih =>
    rw [pyMinBy_cons]
    by_cases h : key y < key x
    · rw [if_pos h]
      exact List.mem_cons_of_mem x (ih y)
    · rw [if_neg h]
      rcases List.mem_cons.mp (ih x) with h1 | h1
      · exact List.mem_cons.mpr (.inl h1)
      · exact List.mem_cons_of_mem x (List.mem_cons_of_mem y h1)

theorem pyMinBy_le (key : α → ℚ) (x : α) (xs : List α) :
    ∀ z ∈ x :: xs, key (pyMinBy key x xs) ≤ key z := by
  induction xs generalizing x with
  | nil =>
    intro z hz
    rcases List.mem_cons.mp hz with h1 | h1
    · subst h1; simp [pyMinBy]
    · simp at h1
  | cons y ys ih =>
    intro z hz
    rw [pyMinBy_cons]
    rcases List.mem_cons.mp hz with h1 | h1
    · subst h1
      by_cases h : key y < key z
      · rw [if_pos h]
        exact le_of_lt (lt_of_le_of_lt (ih y y (List.mem_cons_self _ _)) h)
      · rw [if_neg h]
        exact ih z z (List.mem_cons_self _ _)
    · rcases List.mem_cons.mp h1 with h2 | h2
      · subst h2
        by_cases h : key z < key x
        · rw [if_pos h]
          exact ih z z (List.mem_cons_self _ _)
        · rw [if_neg h]
          exact le_trans (ih x x (List.mem_cons_self _ _)) (not_lt.mp h)
      · by_cases h : key y < key x
        · rw [if_pos h]
          exact ih y z (List.mem_cons_of_mem _ h2)
        · rw [if_neg h]
          exact ih x z (List.mem_cons_of_mem _ h2)

theorem pyMaxBy_mem (key : α → ℚ) (x : α) (xs : List α) :
    pyMaxBy key x xs ∈ x :: xs := by
  induction xs generalizing x with
  | nil => simp [pyMaxBy]
  | cons y ys ih =>
    rw [pyMaxBy_cons]
    by_cases h : key y > key x
    · rw [if_pos h]
      exact List.mem_cons_of_mem x (ih y)
    · rw [if_neg h]
      rcases List.mem_cons.mp (ih x) with h1 | h1
      · exact List.mem_cons.mpr (.inl h1)
      · exact List.mem_cons_of_mem x (List.mem_cons_of_mem y h1)

theorem pyMaxBy_ge (key : α → ℚ) (x : α) (xs : List α) :
    ∀ z ∈ x :: xs, key z ≤ key (pyMaxBy key x xs) := by
  induction xs generalizing x with
  | nil =>
    intro z hz
    rcases List.mem_cons.mp hz with h1 | h1
    · subst h1; simp [pyMaxBy]
    · simp at h1
  | cons y ys ih =>
    intro z hz
    rw [pyMaxBy_cons]
    rcases List.mem_cons.mp hz with h1 | h1
    · subst h1
      by_cases h : key y > key z
      · rw [if_pos h]
        exact le_of_lt (lt_of_lt_of_le h (ih y y (List.mem_cons_self _ _)))
      · rw [if_neg h]
        exact ih z z (List.mem_cons_self _ _)
    · rcases List.mem_cons.mp h1 with h2 | h2
      · subst h2
        by_cases h : key z > key x
        · rw [if_pos h]
          exact ih z z (List.mem_cons_self _ _)
        · rw [if_neg h]
          exact le_trans (not_lt.mp h) (ih x x (List.mem_cons_self _ _))
      · by_cases h : key y > key x
        · rw [if_pos h]
          exact ih y z (List.mem_cons_of_mem _ h2)
        · rw [if_neg h]
          exact ih x z (List.mem_cons_of_mem _ h2)

/-! ## Concrete instances used as evaluation points -/

/-- The streaming service of the demonstration: Akamai primary, CloudFront backup. -/
def demoStreamSvc : VideoStreamingService where
  primary_cdn := AkamaiCDN.make "akamai_key" "us-east"
  backup_cdn := CloudFrontCDN.make "aws_key" "aws_secret" "distribution123"

/-- Akamai primary with Fastly backup; neither serves region `"JP"`. -/
def akamaiFastlySvc : VideoStreamingService where
  primary_cdn := AkamaiCDN.make "akamai_key" "us-east"
  backup_cdn := FastlyCDN.make "service1" "token1"

/-- The payment service of the demonstration: Stripe, PayPal, Apple Pay with
Sift fraud detection (each wrapped with a fixed fresh-uuid value). -/
def demoPaymentSvc : RidePaymentService where
  payment_methods :=
    [StripePayment.make "stripe_key" "u1",
     PayPalPayment.make "paypal_client" "paypal_secret" "u2",
     ApplePayment.make "merchant123" "u3"]
  fraud_detector := SiftFraudDetection.check_transaction "sift_key"

/-- A payment method whose `process_payment` always returns `success = False`. -/
def failMethod (nm : String) : PaymentMethod where
  name := nm
  process_payment := fun amount _ =>
    .ok { success := false, transaction_id := "", amount := amount, fee := 0 }
  refund_payment := fun _ _ => .ok { success := false, refund_id := "" }
  is_available_in_country := fun _ => true
  get_processing_fee := fun _ => 0

/-- A payment method whose `process_payment` always succeeds. -/
def okMethod (nm tid : String) : PaymentMethod where
  name := nm
  process_payment := fun amount _ =>
    .ok { success := true, transaction_id := tid, amount := amount, fee := 1 }
  refund_payment := fun _ _ => .ok { success := true, refund_id := "r" }
  is_available_in_country := fun _ => true
  get_processing_fee := fun _ => 1

/-- Three providers, the first two failing and the third succeeding. -/
def rotationDemoSvc : RidePaymentService where
  payment_methods := [failMethod "MethodA", failMethod "MethodB", okMethod "MethodC" "txn_c"]
  fraud_detector := SiftFraudDetection.check_transaction "sift_key"

/-- A CDN available everywhere whose `get_available_qualities` returns `[]`. -/
def EmptyQualitiesCDN : CDNProvider where
  name := "EmptyQualitiesCDN"
  get_stream_url := fun _ _ _ => .ok "unused"
  get_available_qualities := fun _ => .ok []
  get_bandwidth_cost := fun g => g
  is_available_in_region := fun _ => true

/-- A CDN that is available in no region. -/
def NowhereCDN : CDNProvider where
  name := "NowhereCDN"
  get_stream_url := fun _ _ _ => .ok "unused"
  get_available_qualities := fun _ => .ok ["480p"]
  get_bandwidth_cost := fun g => g
  is_available_in_region := fun _ => false

/-- A CDN available everywhere all of whose fallible operations raise. -/
def ExplodingCDN : CDNProvider where
  name := "ExplodingCDN"
  get_stream_url := fun _ _ _ => .error "backup exploded"
  get_available_qualities := fun _ => .error "backup exploded"
  get_bandwidth_cost := fun g => g
  is_available_in_region := fun _ => true

/-- The repository service of the demonstration: filesystem primary, S3 backup. -/
def demoRepoSvc : GitHubRepositoryService where
  primary_storage := FilesystemStorage.make "/repos"
  backup_storage := S3Storage.make "github-repos" "aws_key" "aws_secret"
  backup_strategy := { backup_repository := fun _ _ => { backup_id := some "backup_42" } }

def demoTargetStorage : RepositoryStorage := S3Storage.make "github-repos" "aws_key" "aws_secret"

/-! ## Claims -/

/-- C1: for every coordinator whose primary CDN is unavailable in region `R`
and whose backup CDN is available in `R` (and whose backup provider produces
a quality list and stream URLs normally), `stream_video` returns a
`success = true` result whose stream URL comes from the backup provider and
which reports the backup provider's name; if neither CDN is available in `R`,
the availability-failure result is returned. -/
theorem C1_backup_failover (svc : VideoStreamingService) (uid vid R pref : String) :
    (svc.primary_cdn.is_available_in_region R = false →
      svc.backup_cdn.is_available_in_region R = true →
      ∀ qs, svc.backup_cdn.get_available_qualities vid = .ok qs → qs ≠ [] →
      (∀ q, ∃ url, svc.backup_cdn.get_stream_url vid q R = .ok url) →
      ∃ q url, selectQuality pref qs = .ok q ∧
        svc.backup_cdn.get_stream_url vid q R = .ok url ∧
        stream_video svc uid vid R pref = .ok (.ok url q svc.backup_cdn.name true) ∧
        (StreamOutcome.ok url q svc.backup_cdn.name true).success = true) ∧
    (svc.primary_cdn.is_available_in_region R = false →
      svc.backup_cdn.is_available_in_region R = false →
      stream_video svc uid vid R pref = .ok .noCDN) := by
  constructor
  · intro hp hb qs hqs hne hurl
    obtain ⟨q, hq⟩ := selectQuality_ok_of_ne_nil pref hne
    obtain ⟨url, hu⟩ := hurl q
    refine ⟨q, url, hq, hu, ?_, rfl⟩
    unfold stream_video
    rw [if_neg (by simp [hp]), if_pos hb]
    simp [streamBranch, hqs, hq, hu]
  · intro hp hb
    unfold stream_video
    rw [if_neg (by simp [hp]), if_neg (by simp [hb])]

/-- Witness for C1 at the demonstration configuration: Akamai is unavailable
in `"CA"`, CloudFront serves it; and with Fastly as backup neither serves
`"JP"`. -/
theorem C1_backup_failover_witness :
    (∃ q url, selectQuality "1080p" ["360p", "480p", "720p", "1080p", "4K", "8K"] = .ok q ∧
      demoStreamSvc.backup_cdn.get_stream_url "video456" q "CA" = .ok url ∧
      stream_video demoStreamSvc "user123" "video456" "CA" "1080p" =
        .ok (.ok url q demoStreamSvc.backup_cdn.name true) ∧
      (StreamOutcome.ok url q demoStreamSvc.backup_cdn.name true).success = true) ∧
    stream_video akamaiFastlySvc "user123" "video456" "JP" "1080p" = .ok .noCDN := by
  constructor
  · exact (C1_backup_failover demoStreamSvc "user123" "video456" "CA" "1080p").1
      (by decide) (by decide) ["360p", "480p", "720p", "1080p", "4K", "8K"] rfl
      (by decide) (fun q => ⟨_, rfl⟩)
  · exact (C1_backup_failover akamaiFastlySvc "user123" "video456" "JP" "1080p").2
      (by decide) (by decide)

/-- C6: whenever `stream_video` returns a success result, the quality in the
result equals the caller's preferred quality if that quality is in the chosen
provider's `get_available_qualities` list, and otherwise equals the last
element of that provider's list; the chosen provider is the primary CDN when
the result is the primary-branch dictionary (`using_backup = false`) and the
backup CDN otherwise. -/
theorem C6_quality_selection (svc : VideoStreamingService)
    (u v loc pref url q n : String) (ub : Bool)
    (h : stream_video svc u v loc pref = .ok (.ok url q n ub)) :
    ∃ qs, (if ub then svc.backup_cdn else svc.primary_cdn).get_available_qualities v = .ok qs ∧
      n = (if ub then svc.backup_cdn else svc.primary_cdn).name ∧
      ((pref ∈ qs ∧ q = pref) ∨ (pref ∉ qs ∧ qs.getLast? = some q)) := by
  rcases stream_video_ok_cases h with ⟨hub, hn, _, hsb⟩ | ⟨hub, hn, _, hsb⟩ <;>
    subst hub <;>
    obtain ⟨qs, hqs, hsel, _⟩ := streamBranch_ok hsb <;>
    exact ⟨qs, by simpa using hqs, by simpa using hn, selectQuality_ok_cases hsel⟩

/-- Witness for C6: the demonstration call (`Akamai` primary, `"US"`,
`"1080p"` preferred) serves `"1080p"` because it is offered. -/
theorem C6_quality_selection_witness :
    ∃ qs, (if false then demoStreamSvc.backup_cdn else demoStreamSvc.primary_cdn).get_available_qualities "video456" = .ok qs ∧
      "AkamaiCDN" = (if false then demoStreamSvc.backup_cdn else demoStreamSvc.primary_cdn).name ∧
      (("1080p" ∈ qs ∧ "1080p" = "1080p") ∨ ("1080p" ∉ qs ∧ qs.getLast? = some "1080p")) :=
  C6_quality_selection demoStreamSvc "user123" "video456" "US" "1080p"
    "https://akamai-us-east.com/video/video456/1080p" "1080p" "AkamaiCDN" false rfl

/-- C7: constructing `Square` or `Rectangle` with a non-positive dimension
raises `ValueError` at construction; with positive dimensions construction
succeeds and stores the given dimensions unchanged; no constructed object
ever carries a non-positive dimension. -/
theorem C7_shape_validation :
    (∀ s : ℚ, s ≤ 0 → Square.make s = .error "Side must be positive") ∧
    (∀ s : ℚ, 0 < s → Square.make s = .ok { side := s }) ∧
    (∀ w h : ℚ, w ≤ 0 ∨ h ≤ 0 →
      Rectangle.make w h = .error "Width and height must be positive") ∧
    (∀ w h : ℚ, 0 < w → 0 < h → Rectangle.make w h = .ok { width := w, height := h }) ∧
    (∀ (s : ℚ) (sq : Square), Square.make s = .ok sq → 0 < sq.side) ∧
    (∀ (w h : ℚ) (r : Rectangle), Rectangle.make w h = .ok r →
      0 < r.width ∧ 0 < r.height) := by
  refine ⟨?_, ?_, ?_, ?_, ?_, ?_⟩
  · intro s hs
    simp [Square.make, hs]
  · intro s hs
    simp [Square.make, not_le.mpr hs]
  · intro w h hwh
    simp [Rectangle.make, hwh]
  · intro w h hw hh
    simp [Rectangle.make, not_le.mpr hw, not_le.mpr hh]
  · intro s sq h
    unfold Square.make at h
    split at h
    · simp at h
    · rename_i hs
      simp only [Except.ok.injEq] at h
      subst h
      exact lt_of_not_le hs
  · intro w h r hr
    unfold Rectangle.make at hr
    split at hr
    · simp at hr
    · rename_i hwh
      push_neg at hwh
      simp only [Except.ok.injEq] at hr
      subst hr
      exact hwh

/-- Witness for C7 at `side = -1`, `side = 3` and a `2 × 5` rectangle. -/
theorem C7_shape_validation_witness :
    Square.make (-1) = .error "Side must be positive" ∧
    Square.make 3 = .ok { side := 3 } ∧
    Rectangle.make 2 5 = .ok { width := 2, height := 5 } :=
  ⟨C7_shape_validation.1 (-1) (by norm_num),
   C7_shape_validation.2.1 3 (by norm_num),
   C7_shape_validation.2.2.2.1 2 5 (by norm_num) (by norm_num)⟩

/-- C8: all six cost functions of the concrete providers are monotonically
non-decreasing in the quantity. -/
theorem C8_cost_monotone (q1 q2 : ℚ) (h : q1 ≤ q2) :
    AkamaiCDN.get_bandwidth_cost q1 ≤ AkamaiCDN.get_bandwidth_cost q2 ∧
    CloudFrontCDN.get_bandwidth_cost q1 ≤ CloudFrontCDN.get_bandwidth_cost q2 ∧
    FastlyCDN.get_bandwidth_cost q1 ≤ FastlyCDN.get_bandwidth_cost q2 ∧
    StripePayment.get_processing_fee q1 ≤ StripePayment.get_processing_fee q2 ∧
    PayPalPayment.get_processing_fee q1 ≤ PayPalPayment.get_processing_fee q2 ∧
    ApplePayment.get_processing_fee q1 ≤ ApplePayment.get_processing_fee q2 := by
  unfold AkamaiCDN.get_bandwidth_cost CloudFrontCDN.get_bandwidth_cost
    FastlyCDN.get_bandwidth_cost StripePayment.get_processing_fee
    PayPalPayment.get_processing_fee ApplePayment.get_processing_fee
  refine ⟨?_, ?_, ?_, ?_, ?_, ?_⟩ <;> linarith

/-- Witness for C8 at quantities `1 ≤ 2`. -/
theorem C8_cost_monotone_witness :
    AkamaiCDN.get_bandwidth_cost 1 ≤ AkamaiCDN.get_bandwidth_cost 2 ∧
    CloudFrontCDN.get_bandwidth_cost 1 ≤ CloudFrontCDN.get_bandwidth_cost 2 ∧
    FastlyCDN.get_bandwidth_cost 1 ≤ FastlyCDN.get_bandwidth_cost 2 ∧
    StripePayment.get_processing_fee 1 ≤ StripePayment.get_processing_fee 2 ∧
    PayPalPayment.get_processing_fee 1 ≤ PayPalPayment.get_processing_fee 2 ∧
    ApplePayment.get_processing_fee 1 ≤ ApplePayment.get_processing_fee 2 :=
  C8_cost_monotone 1 2 (by norm_num)

/-- C10: the quality-fallback step of `stream_video` is partial exactly on an
empty quality list: selecting a quality from `[]` raises `IndexError` (and in
the backup branch this exception reaches the caller instead of a failure
result), while under the precondition that the chosen provider's quality list
is non-empty the selection always succeeds; the three concrete CDNs return
fixed non-empty lists for every video, so the error branch is unreachable
with them. -/
theorem C10_quality_fallback_partiality (pref : String) (qs : List String) :
    (selectQuality pref [] = .error "IndexError") ∧
    (stream_video { primary_cdn := NowhereCDN, backup_cdn := EmptyQualitiesCDN }
        "u" "v" "US" "1080p" = .error "IndexError") ∧
    (∀ v, AkamaiCDN.get_available_qualities v ≠ [] ∧
      CloudFrontCDN.get_available_qualities v ≠ [] ∧
      FastlyCDN.get_available_qualities v ≠ []) ∧
    (qs ≠ [] → ∃ q, selectQuality pref qs = .ok q) := by
  refine ⟨?_, rfl, fun v => ⟨by simp [AkamaiCDN.get_available_qualities],
    by simp [CloudFrontCDN.get_available_qualities],
    by simp [FastlyCDN.get_available_qualities]⟩, fun hne => selectQuality_ok_of_ne_nil pref hne⟩
  simp [selectQuality]

/-- Witness for C10 on the non-empty list `["480p"]`. -/
theorem C10_quality_fallback_partiality_witness :
    (["480p"] : List String) ≠ [] ∧ ∃ q, selectQuality "1080p" ["480p"] = .ok q :=
  ⟨by decide, (C10_quality_fallback_partiality "1080p" ["480p"]).2.2.2 (by decide)⟩

theorem complete_ride_payment_reduce (svc : RidePaymentService) (uid : String) (amt : ℚ)
    (country loc : String) (i : ℕ)
    (hsafe : (svc.fraud_detector uid amt loc).is_safe = true)
    (hne : availableMethods svc country ≠ []) :
    complete_ride_payment svc uid amt country loc i =
      tryMethodsTrace amt uid loc (rotationFrom (availableMethods svc country) i) := by
  obtain ⟨m0, rest, hA⟩ := List.exists_cons_of_ne_nil hne
  simp [complete_ride_payment, hsafe, hA]

/-- C2: with the fraud pre-check passing and at least one country-available
method, `complete_ride_payment` attempts the methods in rotation order
starting at the preferred index (wrapping to the front): if all of them fail
the aggregate failure is returned after attempting exactly the whole rotation
once in order; if some prefix fails and the next method succeeds, exactly
that prefix plus the succeeding method are attempted, once each and in order,
and the succeeding method's result is returned. -/
theorem C2_rotation_order (svc : RidePaymentService) (uid : String) (amt : ℚ)
    (country loc : String) (i : ℕ)
    (hsafe : (svc.fraud_detector uid amt loc).is_safe = true) :
    (availableMethods svc country ≠ [] →
      (∀ m ∈ rotationFrom (availableMethods svc country) i, methodFails m amt uid loc) →
      complete_ride_payment svc uid amt country loc i =
        (.allFailed, (rotationFrom (availableMethods svc country) i).map PaymentMethod.name)) ∧
    (∀ pre m post r, rotationFrom (availableMethods svc country) i = pre ++ m :: post →
      (∀ m' ∈ pre, methodFails m' amt uid loc) →
      m.process_payment amt (rideMetadata uid loc) = .ok r → r.success = true →
      complete_ride_payment svc uid amt country loc i =
        (.paid r.transaction_id amt r.fee m.name, pre.map PaymentMethod.name ++ [m.name])) := by
  constructor
  · intro hne hfail
    rw [complete_ride_payment_reduce svc uid amt country loc i hsafe hne]
    exact tryMethodsTrace_all_fail hfail
  · intro pre m post r hrot hpre hm hs
    have hne : availableMethods svc country ≠ [] := by
      intro h0
      rw [h0] at hrot
      simp [rotationFrom] at hrot
    rw [complete_ride_payment_reduce svc uid amt country loc i hsafe hne, hrot]
    exact tryMethodsTrace_first_success hpre hm hs

/-- Witness for C2: three available providers, the first two failing and the
third succeeding, preferred index 0 — the attempt order is exactly
`MethodA, MethodB, MethodC`, once each, and the third provider's result is
returned. -/
theorem C2_rotation_order_witness :
    complete_ride_payment rotationDemoSvc "rider123" (51/2) "US" "San Francisco" 0 =
      (.paid "txn_c" (51/2) 1 "MethodC", ["MethodA", "MethodB", "MethodC"]) := by
  have hpre : ∀ m' ∈ [failMethod "MethodA", failMethod "MethodB"],
      methodFails m' (51/2) "rider123" "San Francisco" := by
    intro m' hm'
    have hcases : m' = failMethod "MethodA" ∨ m' = failMethod "MethodB" := by simpa using hm'
    rcases hcases with h1 | h1 <;> subst h1 <;> intro r hr <;>
      · simp only [failMethod, Except.ok.injEq] at hr
        rw [← hr]
  have hsafe : (rotationDemoSvc.fraud_detector "rider123" (51/2) "San Francisco").is_safe
      = true := by
    show (SiftFraudDetection.check_transaction "sift_key" "rider123" (51/2)
      "San Francisco").is_safe = true
    unfold SiftFraudDetection.check_transaction
    simp only [decide_eq_true_eq]
    rw [if_pos (by norm_num)]
    norm_num
  have h := (C2_rotation_order rotationDemoSvc "rider123" (51/2) "US" "San Francisco" 0
      hsafe).2
    [failMethod "MethodA", failMethod "MethodB"] (okMethod "MethodC" "txn_c") []
    { success := true, transaction_id := "txn_c", amount := 51/2, fee := 1 }
    rfl hpre rfl rfl
  simpa using h

/-- C3 (amended): for a non-zero amount, `get_cheapest_payment_method`
selects a method of minimal `get_processing_fee(amount)` among the
country-available methods, but the reported `potential_savings` is the
LARGEST fee minus the smallest fee (the code takes `max(costs) -
min(costs)`), not the second-smallest minus the smallest; at `amount = 0`
the operation raises `ZeroDivisionError` while building the percentage
field instead of returning a result; for exactly Stripe and PayPal
available (country `"DE"`) at amount 100 the two savings notions coincide:
Stripe (fee 3.20) is selected with savings 0.29. -/
theorem C3_cheapest_amended (svc : RidePaymentService) (amount : ℚ) (country : String)
    (m0 : PaymentMethod) (rest : List PaymentMethod)
    (hA : availableMethods svc country = m0 :: rest) (hamount : amount ≠ 0) :
    (∃ ch mx : CostEntry,
      ch ∈ (m0 :: rest).map (costEntryFields amount) ∧
      (∀ e ∈ (m0 :: rest).map (costEntryFields amount), ch.fee ≤ e.fee) ∧
      mx ∈ (m0 :: rest).map (costEntryFields amount) ∧
      (∀ e ∈ (m0 :: rest).map (costEntryFields amount), e.fee ≤ mx.fee) ∧
      get_cheapest_payment_method svc amount country =
        .ok (.result ch.method ((m0 :: rest).map (costEntryFields amount))
          (mx.fee - ch.fee))) ∧
    get_cheapest_payment_method svc 0 country = .error "ZeroDivisionError" ∧
    get_cheapest_payment_method demoPaymentSvc 100 "DE" =
      .ok (.result "StripePayment"
        [{ method := "StripePayment", fee := 16/5, total_cost := 516/5, percentage := 16/5 },
         { method := "PayPalPayment", fee := 349/100, total_cost := 10349/100,
           percentage := 349/100 }]
        (29/100)) := by
  refine ⟨?_, ?_, ?_⟩
  · refine ⟨pyMinBy CostEntry.fee (costEntryFields amount m0)
        (rest.map (costEntryFields amount)),
      pyMaxBy CostEntry.fee (costEntryFields amount m0)
        (rest.map (costEntryFields amount)),
      ?_, ?_, ?_, ?_, ?_⟩
    · simpa using pyMinBy_mem CostEntry.fee (costEntryFields amount m0)
        (rest.map (costEntryFields amount))
    · intro e he
      exact pyMinBy_le CostEntry.fee (costEntryFields amount m0)
        (rest.map (costEntryFields amount)) e (by simpa using he)
    · simpa using pyMaxBy_mem CostEntry.fee (costEntryFields amount m0)
        (rest.map (costEntryFields amount))
    · intro e he
      exact pyMaxBy_ge CostEntry.fee (costEntryFields amount m0)
        (rest.map (costEntryFields amount)) e (by simpa using he)
    · simp [get_cheapest_payment_method, hA, costEntry, hamount,
        buildCosts_of_ne_zero hamount]
  · simp [get_cheapest_payment_method, hA, costEntry]
  · have hDE : availableMethods demoPaymentSvc "DE" =
        [StripePayment.make "stripe_key" "u1",
         PayPalPayment.make "paypal_client" "paypal_secret" "u2"] := rfl
    norm_num [get_cheapest_payment_method, hDE, costEntry, buildCosts, costEntryFields,
      pyMinBy, pyMaxBy, StripePayment.make, PayPalPayment.make,
      StripePayment.get_processing_fee, PayPalPayment.get_processing_fee]

/-- Witness for C3 (amended) at the demonstration service, amount 100,
country `"DE"` (exactly Stripe and PayPal available). -/
theorem C3_cheapest_amended_witness :
    ∃ ch mx : CostEntry,
      ch ∈ [StripePayment.make "stripe_key" "u1",
        PayPalPayment.make "paypal_client" "paypal_secret" "u2"].map (costEntryFields 100) ∧
      (∀ e ∈ [StripePayment.make "stripe_key" "u1",
        PayPalPayment.make "paypal_client" "paypal_secret" "u2"].map (costEntryFields 100),
        ch.fee ≤ e.fee) ∧
      mx ∈ [StripePayment.make "stripe_key" "u1",
        PayPalPayment.make "paypal_client" "paypal_secret" "u2"].map (costEntryFields 100) ∧
      (∀ e ∈ [StripePayment.make "stripe_key" "u1",
        PayPalPayment.make "paypal_client" "paypal_secret" "u2"].map (costEntryFields 100),
        e.fee ≤ mx.fee) ∧
      get_cheapest_payment_method demoPaymentSvc 100 "DE" =
        .ok (.result ch.method
          ([StripePayment.make "stripe_key" "u1",
            PayPalPayment.make "paypal_client" "paypal_secret" "u2"].map (costEntryFields 100))
          (mx.fee - ch.fee)) :=
  (C3_cheapest_amended demoPaymentSvc 100 "DE" (StripePayment.make "stripe_key" "u1")
    [PayPalPayment.make "paypal_client" "paypal_secret" "u2"] rfl (by norm_num)).1

/-- Counterexample for C3 as stated: with Stripe, PayPal and Apple Pay all
available (country `"US"`) at amount 100 the fees are 3.20, 3.49 and 2.50;
Apple Pay (smallest fee) is selected, but the reported savings is
`3.49 - 2.50 = 0.99` (largest minus smallest), whereas the claim's
"second-smallest minus smallest" is `3.20 - 2.50 = 0.70 ≠ 0.99`. -/
theorem C3_cheapest_counterexample :
    get_cheapest_payment_method demoPaymentSvc 100 "US" =
      .ok (.result "ApplePayment"
        [{ method := "StripePayment", fee := 16/5, total_cost := 516/5, percentage := 16/5 },
         { method := "PayPalPayment", fee := 349/100, total_cost := 10349/100,
           percentage := 349/100 },
         { method := "ApplePayment", fee := 5/2, total_cost := 205/2, percentage := 5/2 }]
        (99/100)) ∧
    (99/100 : ℚ) ≠ 16/5 - 5/2 := by
  constructor
  · have hUS : availableMethods demoPaymentSvc "US" =
        [StripePayment.make "stripe_key" "u1",
         PayPalPayment.make "paypal_client" "paypal_secret" "u2",
         ApplePayment.make "merchant123" "u3"] := rfl
    norm_num [get_cheapest_payment_method, hUS, costEntry, buildCosts, costEntryFields,
      pyMinBy, pyMaxBy, StripePayment.make, PayPalPayment.make, ApplePayment.make,
      StripePayment.get_processing_fee, PayPalPayment.get_processing_fee,
      ApplePayment.get_processing_fee]
  · norm_num

/-- C4 (amended): provider failures of the PRIMARY CDN inside `stream_video`
and `process_payment` failures (raised or unsuccessful) inside
`complete_ride_payment` are caught and converted into trying the next
candidate; but an exception raised by the BACKUP CDN's operations inside
`stream_video` propagates to the caller instead of becoming a structured
failure result (the backup branch has no `try/except`). -/
theorem C4_propagation_amended :
    (∀ (svc : VideoStreamingService) (u v loc pref e url q : String),
      svc.primary_cdn.is_available_in_region loc = true →
      streamBranch svc.primary_cdn v pref loc = .error e →
      svc.backup_cdn.is_available_in_region loc = true →
      streamBranch svc.backup_cdn v pref loc = .ok (url, q) →
      stream_video svc u v loc pref = .ok (.ok url q svc.backup_cdn.name true)) ∧
    (∀ (m : PaymentMethod) (rest : List PaymentMethod) (amt : ℚ) (uid loc e : String),
      m.process_payment amt (rideMetadata uid loc) = .error e →
      tryMethodsTrace amt uid loc (m :: rest) =
        ((tryMethodsTrace amt uid loc rest).1, m.name :: (tryMethodsTrace amt uid loc rest).2)) ∧
    (∀ (m : PaymentMethod) (rest : List PaymentMethod) (amt : ℚ) (uid loc : String)
        (r : PayResult),
      m.process_payment amt (rideMetadata uid loc) = .ok r → r.success = false →
      tryMethodsTrace amt uid loc (m :: rest) =
        ((tryMethodsTrace amt uid loc rest).1, m.name :: (tryMethodsTrace amt uid loc rest).2)) := by
  refine ⟨?_, ?_, ?_⟩
  · intro svc u v loc pref e url q hp hpe hb hbo
    simp [stream_video, hp, hpe, hb, hbo]
  · intro m rest amt uid loc e h
    conv_lhs => rw [tryMethodsTrace]
    simp [h]
  · intro m rest amt uid loc r h hs
    conv_lhs => rw [tryMethodsTrace]
    simp [h, hs]

/-- An always-raising primary CDN in front of a working CloudFront backup. -/
def explodingPrimarySvc : VideoStreamingService where
  primary_cdn := ExplodingCDN
  backup_cdn := CloudFrontCDN.make "aws_key" "aws_secret" "distribution123"

/-- Witness for C4 (amended): an always-raising primary CDN fails over to a
working CloudFront backup. -/
theorem C4_propagation_amended_witness :
    stream_video explodingPrimarySvc "u" "v" "US" "1080p" =
      .ok (.ok "https://distribution123.cloudfront.net/v/1080p.m3u8" "1080p"
        "CloudFrontCDN" true) :=
  C4_propagation_amended.1 explodingPrimarySvc
    "u" "v" "US" "1080p" "backup exploded"
    "https://distribution123.cloudfront.net/v/1080p.m3u8" "1080p" rfl rfl rfl rfl

/-- Counterexample for C4 as stated: with an unavailable primary CDN and an
available backup CDN whose operations raise, `stream_video` lets the backup
provider's exception reach the caller as a thrown fault (`Except.error`)
instead of returning a structured success/failure result. -/
theorem C4_propagation_counterexample :
    stream_video { primary_cdn := NowhereCDN, backup_cdn := ExplodingCDN }
      "u" "v" "US" "1080p" = .error "backup exploded" := rfl

/-- C5 (amended): all fields of the provider operations other than the
freshly generated transaction/refund identifiers are deterministic functions
of the call's inputs and the fixed configuration — for any two uuid draws
`u1`, `u2` (and any metadata) the `success`, `amount` and `fee` fields of
`process_payment` and the `success` field of `refund_payment` agree for
Stripe, PayPal and Apple Pay.  (The remaining six interface operations
consume no entropy at all in the source, so they are deterministic by
construction of the embedding.) -/
theorem C5_determinism_amended (u1 u2 tid : String) (amount : ℚ) (md1 md2 : Metadata) :
    ((StripePayment.process_payment u1 amount md1).success
        = (StripePayment.process_payment u2 amount md2).success ∧
      (StripePayment.process_payment u1 amount md1).amount
        = (StripePayment.process_payment u2 amount md2).amount ∧
      (StripePayment.process_payment u1 amount md1).fee
        = (StripePayment.process_payment u2 amount md2).fee) ∧
    ((PayPalPayment.process_payment u1 amount md1).success
        = (PayPalPayment.process_payment u2 amount md2).success ∧
      (PayPalPayment.process_payment u1 amount md1).amount
        = (PayPalPayment.process_payment u2 amount md2).amount ∧
      (PayPalPayment.process_payment u1 amount md1).fee
        = (PayPalPayment.process_payment u2 amount md2).fee) ∧
    ((ApplePayment.process_payment u1 amount md1).success
        = (ApplePayment.process_payment u2 amount md2).success ∧
      (ApplePayment.process_payment u1 amount md1).amount
        = (ApplePayment.process_payment u2 amount md2).amount ∧
      (ApplePayment.process_payment u1 amount md1).fee
        = (ApplePayment.process_payment u2 amount md2).fee) ∧
    ((StripePayment.refund_payment u1 tid amount).success
        = (StripePayment.refund_payment u2 tid amount).success) ∧
    ((PayPalPayment.refund_payment u1 tid amount).success
        = (PayPalPayment.refund_payment u2 tid amount).success) ∧
    ((ApplePayment.refund_payment u1 tid amount).success
        = (ApplePayment.refund_payment u2 tid amount).success) :=
  ⟨⟨rfl, rfl, rfl⟩, ⟨rfl, rfl, rfl⟩, ⟨rfl, rfl, rfl⟩, rfl, rfl, rfl⟩

/-- Counterexample for C5 as stated: two calls of Stripe's `process_payment`
with identical arguments but different fresh `uuid4` draws return different
results (the `transaction_id` embeds the fresh uuid). -/
theorem C5_determinism_counterexample :
    StripePayment.process_payment "1f2e" 100 [] ≠ StripePayment.process_payment "77aa" 100 [] := by
  intro h
  simp [StripePayment.process_payment] at h

/-- C9: `migrate_repository_storage` replaces the primary-storage reference
with the target exactly on success (leaving backup storage and backup
strategy unchanged); on any failure result the whole coordinator state is
unchanged; and `create_repository`, the only other public operation, never
mutates the coordinator. -/
theorem C9_migration_frame (svc : GitHubRepositoryService) (repo_id : String)
    (target : RepositoryStorage) (o : MigrateOutcome) (svc' : GitHubRepositoryService)
    (h : migrate_repository_storage svc repo_id target = (o, svc')) :
    (o.success = true → svc' = { svc with primary_storage := target }) ∧
    (o.success = false → svc' = svc) ∧
    (∀ (rid : String) (data : Bytes), (create_repository svc rid data).2 = svc) := by
  have hcreate : ∀ (rid : String) (data : Bytes), (create_repository svc rid data).2 = svc := by
    intro rid data
    unfold create_repository
    split <;> rfl
  unfold migrate_repository_storage at h
  split at h
  · injection h with h1 h2
    subst h1; subst h2
    exact ⟨fun hc => by simp [MigrateOutcome.success] at hc, fun _ => rfl, hcreate⟩
  · rename_i repo_data hret
    split at h
    · injection h with h1 h2
      subst h1; subst h2
      exact ⟨fun hc => by simp [MigrateOutcome.success] at hc, fun _ => rfl, hcreate⟩
    · split at h
      · injection h with h1 h2
        subst h1; subst h2
        exact ⟨fun _ => rfl, fun hc => by simp [MigrateOutcome.success] at hc, hcreate⟩
      · injection h with h1 h2
        subst h1; subst h2
        exact ⟨fun hc => by simp [MigrateOutcome.success] at hc, fun _ => rfl, hcreate⟩

/-- Witness for C9: migrating the demonstration repository service to the S3
target succeeds and replaces exactly the primary-storage reference. -/
theorem C9_migration_frame_witness :
    (migrate_repository_storage demoRepoSvc "my-awesome-project" demoTargetStorage).2 =
      { demoRepoSvc with primary_storage := demoTargetStorage } :=
  (C9_migration_frame demoRepoSvc "my-awesome-project" demoTargetStorage
    (migrate_repository_storage demoRepoSvc "my-awesome-project" demoTargetStorage).1
    (migrate_repository_storage demoRepoSvc "my-awesome-project" demoTargetStorage).2
    rfl).1 rfl
